import Mathlib

/-!
Verification development for the gccrs tree-node data model
(gcc/rust/backend/rust-tree.h and rust-tree.cc, forked from gcc/cp/cp-tree.h).

The embedding translates the macro layer and data structures of the source
into executable Lean definitions: tree nodes carry a code, the three
language-flag banks, the optional language-specific declaration payload
(a selector-discriminated union) and the optional class-type payload.
Checked accessors return an `Except` value whose error constructor stands
for the internal-error reports (`tree_check_failed` / `lang_check_failed`)
of checked builds; release accessors return the raw reinterpreted access,
with `Option.none` standing for a read whose bits do not carry the
requested interpretation.
-/

namespace Gccrs

/-- Tree codes used by the verified accessors.  The source relies on the
closed code enumeration of the host tree representation; only the codes
the verified macros inspect are listed here. -/
inductive TreeCode where
  | FUNCTION_DECL
  | VAR_DECL
  | PARM_DECL
  | FIELD_DECL
  | CONST_DECL
  | TYPE_DECL
  | TEMPLATE_DECL
  | USING_DECL
  | CONCEPT_DECL
  | NAMESPACE_DECL
  | LABEL_DECL
  | RECORD_TYPE
  | UNION_TYPE
  | INTEGER_TYPE
  | REFERENCE_TYPE
  | IDENTIFIER_NODE
  deriving DecidableEq, Repr

/-! ### Identifier nodes and their 3 kind bits

An IDENTIFIER_NODE stores its category in TREE_LANG_FLAG_0..2
(IDENTIFIER_KIND_BIT_0/1/2).  The `sym` field models the identity of the
interned identifier: the host compiler interns identifiers, so pointer
equality between identifier nodes is equality of the interned symbol. -/

structure Ident where
  bit0 : Bool
  bit1 : Bool
  bit2 : Bool
  sym : Nat
  deriving DecidableEq, Repr

/-- IDENTIFIER_KIND_BIT_0: TREE_LANG_FLAG_0 of the identifier node. -/
def IDENTIFIER_KIND_BIT_0 (i : Ident) : Bool := i.bit0

/-- IDENTIFIER_KIND_BIT_1: TREE_LANG_FLAG_1 of the identifier node. -/
def IDENTIFIER_KIND_BIT_1 (i : Ident) : Bool := i.bit1

/-- IDENTIFIER_KIND_BIT_2: TREE_LANG_FLAG_2 of the identifier node. -/
def IDENTIFIER_KIND_BIT_2 (i : Ident) : Bool := i.bit2

/-- True if this identifier is a reserved word.  Value 1. -/
def IDENTIFIER_KEYWORD_P (i : Ident) : Bool :=
  (!IDENTIFIER_KIND_BIT_2 i) && (!IDENTIFIER_KIND_BIT_1 i)
    && IDENTIFIER_KIND_BIT_0 i

/-- True if this identifier is the name of a constructor or destructor.
Value 2 or 3. -/
def IDENTIFIER_CDTOR_P (i : Ident) : Bool :=
  (!IDENTIFIER_KIND_BIT_2 i) && IDENTIFIER_KIND_BIT_1 i

/-- True if this identifier is the name of a constructor.  Value 2. -/
def IDENTIFIER_CTOR_P (i : Ident) : Bool :=
  IDENTIFIER_CDTOR_P i && (!IDENTIFIER_KIND_BIT_0 i)

/-- True if this identifier is the name of a destructor.  Value 3. -/
def IDENTIFIER_DTOR_P (i : Ident) : Bool :=
  IDENTIFIER_CDTOR_P i && IDENTIFIER_KIND_BIT_0 i

/-- True if this identifier is for any operator name, conversions
included.  Value 4, 5, 6 or 7. -/
def IDENTIFIER_ANY_OP_P (i : Ident) : Bool := IDENTIFIER_KIND_BIT_2 i

/-- True if this identifier is for an overloaded operator.  Values 4, 5. -/
def IDENTIFIER_OVL_OP_P (i : Ident) : Bool :=
  IDENTIFIER_ANY_OP_P i && (!IDENTIFIER_KIND_BIT_1 i)

/-- True if this identifier is for any assignment.  Values 5. -/
def IDENTIFIER_ASSIGN_OP_P (i : Ident) : Bool :=
  IDENTIFIER_OVL_OP_P i && IDENTIFIER_KIND_BIT_0 i

/-- True if this identifier is the name of a type-conversion operator.
The source macro tests bit2 and bit1 set with bit0 clear. -/
def IDENTIFIER_CONV_OP_P (i : Ident) : Bool :=
  IDENTIFIER_ANY_OP_P i && IDENTIFIER_KIND_BIT_1 i
    && (!IDENTIFIER_KIND_BIT_0 i)

/-- The kind value encoded by the three kind bits, bit0 least
significant. -/
def Ident.kindVal (i : Ident) : Nat :=
  (if i.bit0 then 1 else 0) + (if i.bit1 then 2 else 0)
    + (if i.bit2 then 4 else 0)

/-! The interned constructor and destructor identifiers.  `ctor_identifier`
and its variants carry the constructor kind (value 2), the destructor
identifiers carry the destructor kind (value 3); distinct symbols model
distinct interned nodes. -/

def ctor_identifier : Ident := ⟨false, true, false, 0⟩

def complete_ctor_identifier : Ident := ⟨false, true, false, 1⟩

def base_ctor_identifier : Ident := ⟨false, true, false, 2⟩

def dtor_identifier : Ident := ⟨true, true, false, 3⟩

def complete_dtor_identifier : Ident := ⟨true, true, false, 4⟩

def base_dtor_identifier : Ident := ⟨true, true, false, 5⟩

def deleting_dtor_identifier : Ident := ⟨true, true, false, 6⟩

/-! ### The declaration extension payload: lang_decl

`lang_decl` is a union of five record shapes discriminated by the 3-bit
`selector` field of the shared `lang_decl_base` prefix.  `lang_decl_min`
is a prefix of `lang_decl_fn` and of `lang_decl_decomp`, so a `u.min`
read is also meaningful on those variants.  Tree pointers stored inside
the payload are modelled as `Option Nat` node identities (`none` is the
null tree). -/

abbrev TreeRef := Option Nat

/-- Discriminator values for lang_decl. -/
inductive LangDeclSelector where
  | lds_min
  | lds_fn
  | lds_ns
  | lds_parm
  | lds_decomp
  deriving DecidableEq, Repr

/-- The `languages` enumeration. -/
inductive CcLanguage where
  | lang_c
  | lang_cplusplus
  deriving DecidableEq, Repr

/-- Flags shared by all forms of DECL_LANG_SPECIFIC (lang_decl_base).
`use_template` is a 2-bit unsigned bitfield, hence `Fin 4`.  The
remaining one-bit fields of the source record are not read by any
accessor verified here and are omitted. -/
structure LangDeclBase where
  selector : LangDeclSelector
  language : CcLanguage
  use_template : Fin 4
  deriving DecidableEq, Repr

/-- lang_decl_min: base prefix, template info, and the overloaded
access slot. -/
structure LangDeclMin where
  base : LangDeclBase
  template_info : TreeRef
  access : TreeRef
  deriving DecidableEq, Repr

/-- The `u5` union of lang_decl_fn, discriminated by `thunk_p`:
tag 0 is DECL_CLONED_FUNCTION, tag 1 is THUNK_FIXED_OFFSET
(a HOST_WIDE_INT). -/
inductive LangDeclU5 where
  | cloned_function (t : TreeRef)
  | fixed_offset (v : Int)
  deriving DecidableEq, Repr

/-- The `u` union of lang_decl_fn, discriminated by `pending_inline_p`:
tag 0 is the saved auto return type, tag 1 the pending inline token
cache (modelled by the identity of the cache). -/
inductive LangDeclU3 where
  | saved_auto_return_type (t : TreeRef)
  | pending_inline_info (cache : Nat)
  deriving DecidableEq, Repr

/-- lang_decl_fn: the function variant, a lang_decl_min prefix plus the
packed function bits and the two inner unions. -/
structure LangDeclFn where
  min : LangDeclMin
  ovl_op_code : Fin 64
  global_ctor_p : Bool
  global_dtor_p : Bool
  static_function : Bool
  pure_virtual : Bool
  defaulted_p : Bool
  has_in_charge_parm_p : Bool
  has_vtt_parm_p : Bool
  pending_inline_p : Bool
  nonconverting : Bool
  thunk_p : Bool
  this_thunk_p : Bool
  omp_declare_reduction_p : Bool
  has_dependent_explicit_spec_p : Bool
  immediate_fn_p : Bool
  maybe_deleted : Bool
  coroutine_p : Bool
  implicit_constexpr : Bool
  befriending_classes : TreeRef
  context : TreeRef
  u5 : LangDeclU5
  u : LangDeclU3
  deriving DecidableEq, Repr

/-- lang_decl_ns: the namespace variant.  The binding level, the inline
children vector and the bound-decl hash table are modelled by their
identities. -/
structure LangDeclNs where
  base : LangDeclBase
  level : Nat
  inlinees : List TreeRef
  bindings : Nat
  deriving DecidableEq, Repr

/-- lang_decl_parm: the parameter variant. -/
structure LangDeclParm where
  base : LangDeclBase
  level : Int
  index : Int
  deriving DecidableEq, Repr

/-- lang_decl_decomp: the structured-binding variant, a lang_decl_min
prefix plus the underlying artificial variable. -/
structure LangDeclDecomp where
  min : LangDeclMin
  base : TreeRef
  deriving DecidableEq, Repr

/-- The lang_decl union.  In the source the active member is the one
named by `base.selector`; the construction discipline keeps the two in
agreement. -/
inductive LangDeclU where
  | min (m : LangDeclMin)
  | fn (f : LangDeclFn)
  | ns (n : LangDeclNs)
  | parm (p : LangDeclParm)
  | decomp (d : LangDeclDecomp)
  deriving DecidableEq, Repr

/-- The shared `lang_decl_base` prefix, reachable through every
variant. -/
def LangDeclU.base : LangDeclU → LangDeclBase
  | .min m => m.base
  | .fn f => f.min.base
  | .ns n => n.base
  | .parm p => p.base
  | .decomp d => d.min.base

/-- Read of `u.min`.  `lang_decl_min` is a layout prefix of
`lang_decl_fn` and `lang_decl_decomp`, so the read is meaningful on
those variants as well; on the ns and parm variants the bits do not
form a `lang_decl_min` and the read yields `none`. -/
def LangDeclU.readMin : LangDeclU → Option LangDeclMin
  | .min m => some m
  | .fn f => some f.min
  | .decomp d => some d.min
  | _ => none

/-- Read of `u.fn`: only the fn variant stores one. -/
def LangDeclU.readFn : LangDeclU → Option LangDeclFn
  | .fn f => some f
  | _ => none

/-- Read of `u.ns`. -/
def LangDeclU.readNs : LangDeclU → Option LangDeclNs
  | .ns n => some n
  | _ => none

/-- Read of `u.parm`. -/
def LangDeclU.readParm : LangDeclU → Option LangDeclParm
  | .parm p => some p
  | _ => none

/-- Read of `u.decomp`. -/
def LangDeclU.readDecomp : LangDeclU → Option LangDeclDecomp
  | .decomp d => some d
  | _ => none

/-- Read of `u.fn.u5` under its cloned-function interpretation (the
interpretation that is active when `thunk_p` is clear).  When the slot
holds the fixed offset of a thunk, the bits do not denote a tree and
the read yields `none`. -/
def LangDeclU.readClonedFunction : LangDeclU → Option TreeRef
  | .fn f =>
    match f.u5 with
    | .cloned_function t => some t
    | .fixed_offset _ => none
  | _ => none

/-- Read of `u.fn.u5` under its fixed-offset interpretation (active when
`thunk_p` is set). -/
def LangDeclU.readFixedOffset : LangDeclU → Option Int
  | .fn f =>
    match f.u5 with
    | .fixed_offset v => some v
    | .cloned_function _ => none
  | _ => none

/-! ### The class-type extension payload: lang_type

The `lang_type` record itself lives outside this excerpt (the source
keeps only the accessor macros); the fields modelled here are exactly
the ones those macros dereference: `gets_delete` is a 2-bit field,
`being_defined` a one-bit flag, `use_template` the 2-bit class-type
twin of the declaration field. -/

structure LangType where
  gets_delete : Fin 4
  being_defined : Bool
  use_template : Fin 4
  deriving DecidableEq, Repr

/-! ### The generic tree node

A node carries its code, the three language-flag banks (TREE_LANG_FLAG_0..6,
TYPE_LANG_FLAG_0..6, DECL_LANG_FLAG_0..8, each a distinct one-bit field of
the host record), the optional declaration payload (DECL_LANG_SPECIFIC),
the optional class-type payload (TYPE_LANG_SPECIFIC), the declaration name
(DECL_NAME, an identifier node), the completeness bit (COMPLETE_TYPE_P of
the host representation: TYPE_SIZE is set) and, for TEMPLATE_DECL, the
declared result (DECL_TEMPLATE_RESULT). -/

inductive TreeNode where
  | mk
    (code : TreeCode)
    (treeLangFlags : Fin 7 → Bool)
    (typeLangFlags : Fin 7 → Bool)
    (declLangFlags : Fin 9 → Bool)
    (langDecl : Option LangDeclU)
    (langType : Option LangType)
    (declName : Option Ident)
    (complete : Bool)
    (templateResult : Option TreeNode)

def TreeNode.code : TreeNode → TreeCode
  | .mk c _ _ _ _ _ _ _ _ => c

def TreeNode.treeLangFlags : TreeNode → (Fin 7 → Bool)
  | .mk _ t _ _ _ _ _ _ _ => t

def TreeNode.typeLangFlags : TreeNode → (Fin 7 → Bool)
  | .mk _ _ y _ _ _ _ _ _ => y

def TreeNode.declLangFlags : TreeNode → (Fin 9 → Bool)
  | .mk _ _ _ d _ _ _ _ _ => d

def TreeNode.langDecl : TreeNode → Option LangDeclU
  | .mk _ _ _ _ l _ _ _ _ => l

def TreeNode.langType : TreeNode → Option LangType
  | .mk _ _ _ _ _ l _ _ _ => l

def TreeNode.declName : TreeNode → Option Ident
  | .mk _ _ _ _ _ _ n _ _ => n

def TreeNode.complete : TreeNode → Bool
  | .mk _ _ _ _ _ _ _ c _ => c

def TreeNode.templateResult : TreeNode → Option TreeNode
  | .mk _ _ _ _ _ _ _ _ r => r

/-- TREE_CODE. -/
def TREE_CODE (n : TreeNode) : TreeCode := n.code

/-- DECL_LANG_SPECIFIC. -/
def DECL_LANG_SPECIFIC (n : TreeNode) : Option LangDeclU := n.langDecl

/-- TYPE_LANG_SPECIFIC. -/
def TYPE_LANG_SPECIFIC (n : TreeNode) : Option LangType := n.langType

/-- DECL_NAME. -/
def DECL_NAME (n : TreeNode) : Option Ident := n.declName

/-- The generic flag bank: TREE_LANG_FLAG_0 .. TREE_LANG_FLAG_6, indexed. -/
def TREE_LANG_FLAG (n : TreeNode) (i : Fin 7) : Bool := n.treeLangFlags i

/-- The type-specific flag bank: TYPE_LANG_FLAG_0 .. TYPE_LANG_FLAG_6. -/
def TYPE_LANG_FLAG (n : TreeNode) (i : Fin 7) : Bool := n.typeLangFlags i

/-- The declaration-specific flag bank: DECL_LANG_FLAG_0 .. DECL_LANG_FLAG_8. -/
def DECL_LANG_FLAG (n : TreeNode) (i : Fin 9) : Bool := n.declLangFlags i

/-- Store to one slot of the generic flag bank. -/
def TreeNode.setTreeLangFlag : TreeNode → Fin 7 → Bool → TreeNode
  | .mk c t y d l lt nm cp r, i, v => .mk c (Function.update t i v) y d l lt nm cp r

/-- Store to one slot of the type-specific flag bank. -/
def TreeNode.setTypeLangFlag : TreeNode → Fin 7 → Bool → TreeNode
  | .mk c t y d l lt nm cp r, i, v => .mk c t (Function.update y i v) d l lt nm cp r

/-- Store to one slot of the declaration-specific flag bank. -/
def TreeNode.setDeclLangFlag : TreeNode → Fin 9 → Bool → TreeNode
  | .mk c t y d l lt nm cp r, i, v => .mk c t y (Function.update d i v) l lt nm cp r

/-! ### Checked accessors

In checked builds a failing tree or lang check reports an internal error
through `tree_check_failed` or `lang_check_failed` and aborts; the error
constructors below stand for those two reports. -/

inductive TreeCheckError where
  | tree_check_failed
  | lang_check_failed
  deriving DecidableEq, Repr

/-- TREE_CHECK of the host representation, checked build: internal error
unless the code of the node is the expected one. -/
def TREE_CHECK (n : TreeNode) (c : TreeCode) : Except TreeCheckError TreeNode :=
  if n.code = c then .ok n else .error .tree_check_failed

/-- FUNCTION_DECL_CHECK. -/
def FUNCTION_DECL_CHECK (n : TreeNode) : Except TreeCheckError TreeNode :=
  TREE_CHECK n .FUNCTION_DECL

/-- THUNK_FUNCTION_CHECK, checked build: internal error unless the node
is a FUNCTION_DECL whose lang_specific payload is present with
`u.fn.thunk_p` set.  The source reads `u.fn.thunk_p` without testing the
selector; on a payload that is not the fn variant that read does not
denote the thunk bit, and is modelled as a failed check. -/
def THUNK_FUNCTION_CHECK (n : TreeNode) : Except TreeCheckError TreeNode :=
  match n.code, n.langDecl with
  | .FUNCTION_DECL, some u =>
    match u.readFn with
    | some f => if f.thunk_p then .ok n else .error .tree_check_failed
    | none => .error .tree_check_failed
  | _, _ => .error .tree_check_failed

/-- THUNK_FIXED_OFFSET, checked build:
`DECL_LANG_SPECIFIC (THUNK_FUNCTION_CHECK (DECL))->u.fn.u5.fixed_offset`.
The inner `Option` is the union read: `none` when the slot does not hold
a fixed offset (the payload is absent or stores the other
interpretation). -/
def THUNK_FIXED_OFFSET (n : TreeNode) : Except TreeCheckError (Option Int) :=
  (THUNK_FUNCTION_CHECK n).map fun t => t.langDecl.bind LangDeclU.readFixedOffset

/-- DECL_CLONED_FUNCTION, checked build:
`DECL_LANG_SPECIFIC (FUNCTION_DECL_CHECK (NODE))->u.fn.u5.cloned_function`.
The only check performed is FUNCTION_DECL_CHECK on the tree code; the
inner `Option` is the union read, `none` when the slot does not hold a
cloned-function tree. -/
def DECL_CLONED_FUNCTION (n : TreeNode) : Except TreeCheckError (Option TreeRef) :=
  (FUNCTION_DECL_CHECK n).map fun t => t.langDecl.bind LangDeclU.readClonedFunction

/-- Store through the THUNK_FIXED_OFFSET lvalue: replaces the `u5` slot
of the fn payload with the fixed-offset interpretation.  On a node
without an fn payload the store has no modelled effect. -/
def TreeNode.setFixedOffset : TreeNode → Int → TreeNode
  | .mk c t y d (some (.fn f)) lt nm cp r, v =>
      .mk c t y d (some (.fn { f with u5 := .fixed_offset v })) lt nm cp r
  | n, _ => n

/-! ### STRIP_TEMPLATE and the lang_decl variant checks -/

/-- VAR_P of the host representation: the code is VAR_DECL. -/
def VAR_P (n : TreeNode) : Bool := n.code = .VAR_DECL

/-- VAR_OR_FUNCTION_DECL_P of the host representation. -/
def VAR_OR_FUNCTION_DECL_P (n : TreeNode) : Bool :=
  n.code = .VAR_DECL || n.code = .FUNCTION_DECL

/-- DECL_TEMPLATE_RESULT: the declared result of a TEMPLATE_DECL.  The
checked form raises on a non-template node; the result itself may be the
null tree (`none`). -/
def DECL_TEMPLATE_RESULT (n : TreeNode) : Except TreeCheckError (Option TreeNode) :=
  (TREE_CHECK n .TEMPLATE_DECL).map TreeNode.templateResult

/-- STRIP_TEMPLATE: looks through a template (if present) to find what it
declares.  On a TEMPLATE_DECL whose result is the null tree the strip
yields the null tree, modelled as `none`. -/
def STRIP_TEMPLATE (n : TreeNode) : Option TreeNode :=
  if n.code = .TEMPLATE_DECL then n.templateResult else some n

/-- DECL_FUNCTION_TEMPLATE_P: a TEMPLATE_DECL whose non-null result is a
FUNCTION_DECL. -/
def DECL_FUNCTION_TEMPLATE_P (n : TreeNode) : Bool :=
  n.code = .TEMPLATE_DECL
    && (match n.templateResult with
        | some r => r.code = .FUNCTION_DECL
        | none => false)

/-- DECL_DECLARES_FUNCTION_P. -/
def DECL_DECLARES_FUNCTION_P (n : TreeNode) : Bool :=
  n.code = .FUNCTION_DECL || DECL_FUNCTION_TEMPLATE_P n

/-- LANG_DECL_HAS_MIN: true for the DECL codes which have template info
and access. -/
def LANG_DECL_HAS_MIN (n : TreeNode) : Bool :=
  VAR_OR_FUNCTION_DECL_P n || n.code = .FIELD_DECL || n.code = .CONST_DECL
    || n.code = .TYPE_DECL || n.code = .TEMPLATE_DECL || n.code = .USING_DECL
    || n.code = .CONCEPT_DECL

/-- LANG_DECL_MIN_CHECK, checked build: internal error unless
LANG_DECL_HAS_MIN holds; on success the `u.min` access. -/
def LANG_DECL_MIN_CHECK_checked (n : TreeNode) : Except TreeCheckError (Option LangDeclMin) :=
  if LANG_DECL_HAS_MIN n then .ok (n.langDecl.bind LangDeclU.readMin)
  else .error .lang_check_failed

/-- LANG_DECL_MIN_CHECK, release build: the raw `u.min` access. -/
def LANG_DECL_MIN_CHECK_release (n : TreeNode) : Option LangDeclMin :=
  n.langDecl.bind LangDeclU.readMin

/-- The lang_decl payload consulted by the fn accessors: the payload of
STRIP_TEMPLATE of the node. -/
def strippedLangDecl (n : TreeNode) : Option LangDeclU :=
  (STRIP_TEMPLATE n).bind TreeNode.langDecl

/-- LANG_DECL_FN_CHECK, checked build: internal error unless the node
declares a function and the selector of the stripped payload is lds_fn.
A null stripped payload cannot pass the selector test and is modelled as
the same internal error. -/
def LANG_DECL_FN_CHECK_checked (n : TreeNode) : Except TreeCheckError (Option LangDeclFn) :=
  if DECL_DECLARES_FUNCTION_P n
      ∧ (strippedLangDecl n).map (fun u => u.base.selector) = some .lds_fn
  then .ok ((strippedLangDecl n).bind LangDeclU.readFn)
  else .error .lang_check_failed

/-- LANG_DECL_FN_CHECK, release build: the raw `u.fn` access through
STRIP_TEMPLATE. -/
def LANG_DECL_FN_CHECK_release (n : TreeNode) : Option LangDeclFn :=
  (strippedLangDecl n).bind LangDeclU.readFn

/-- LANG_DECL_NS_CHECK, checked build: internal error unless the node is
a NAMESPACE_DECL with selector lds_ns. -/
def LANG_DECL_NS_CHECK_checked (n : TreeNode) : Except TreeCheckError (Option LangDeclNs) :=
  if n.code = .NAMESPACE_DECL
      ∧ n.langDecl.map (fun u => u.base.selector) = some .lds_ns
  then .ok (n.langDecl.bind LangDeclU.readNs)
  else .error .lang_check_failed

/-- LANG_DECL_NS_CHECK, release build. -/
def LANG_DECL_NS_CHECK_release (n : TreeNode) : Option LangDeclNs :=
  n.langDecl.bind LangDeclU.readNs

/-- LANG_DECL_PARM_CHECK, checked build: internal error unless the node
is a PARM_DECL with selector lds_parm. -/
def LANG_DECL_PARM_CHECK_checked (n : TreeNode) : Except TreeCheckError (Option LangDeclParm) :=
  if n.code = .PARM_DECL
      ∧ n.langDecl.map (fun u => u.base.selector) = some .lds_parm
  then .ok (n.langDecl.bind LangDeclU.readParm)
  else .error .lang_check_failed

/-- LANG_DECL_PARM_CHECK, release build. -/
def LANG_DECL_PARM_CHECK_release (n : TreeNode) : Option LangDeclParm :=
  n.langDecl.bind LangDeclU.readParm

/-- LANG_DECL_DECOMP_CHECK, checked build: internal error unless the
node is a VAR_DECL with selector lds_decomp. -/
def LANG_DECL_DECOMP_CHECK_checked (n : TreeNode) : Except TreeCheckError (Option LangDeclDecomp) :=
  if VAR_P n ∧ n.langDecl.map (fun u => u.base.selector) = some .lds_decomp
  then .ok (n.langDecl.bind LangDeclU.readDecomp)
  else .error .lang_check_failed

/-- LANG_DECL_DECOMP_CHECK, release build. -/
def LANG_DECL_DECOMP_CHECK_release (n : TreeNode) : Option LangDeclDecomp :=
  n.langDecl.bind LangDeclU.readDecomp

/-! ### The class-type accessor and the type predicates -/

/-- LANG_TYPE_CLASS_CHECK: the sole survivor of the lang_type variants
kept only the name of its checking accessor; the macro is exactly
TYPE_LANG_SPECIFIC with no kind or selector verification in any build
configuration. -/
def LANG_TYPE_CLASS_CHECK (n : TreeNode) : Option LangType :=
  TYPE_LANG_SPECIFIC n

/-- TYPE_GETS_DELETE: `LANG_TYPE_CLASS_CHECK (NODE)->gets_delete`.  The
`Option` is the payload dereference, `none` standing for the null
payload whose dereference a checked build would not catch either. -/
def TYPE_GETS_DELETE (n : TreeNode) : Option (Fin 4) :=
  (LANG_TYPE_CLASS_CHECK n).map LangType.gets_delete

/-- RECORD_OR_UNION_CODE_P. -/
def RECORD_OR_UNION_CODE_P (c : TreeCode) : Bool :=
  c = .RECORD_TYPE || c = .UNION_TYPE

/-- CLASS_TYPE_P: a record or union code whose TYPE_LANG_FLAG_5 is set. -/
def CLASS_TYPE_P (n : TreeNode) : Bool :=
  RECORD_OR_UNION_CODE_P n.code && TYPE_LANG_FLAG n 5

/-- COMPLETE_TYPE_P of the host representation: TYPE_SIZE is set. -/
def COMPLETE_TYPE_P (n : TreeNode) : Bool := n.complete

/-- TYPE_BEING_DEFINED: `LANG_TYPE_CLASS_CHECK (NODE)->being_defined`. -/
def TYPE_BEING_DEFINED (n : TreeNode) : Option Bool :=
  (LANG_TYPE_CLASS_CHECK n).map LangType.being_defined

/-- COMPLETE_OR_OPEN_TYPE_P:
`COMPLETE_TYPE_P (NODE) || (CLASS_TYPE_P (NODE) && TYPE_BEING_DEFINED (NODE))`
with the short-circuit evaluation of the source: the being_defined
dereference happens only on an incomplete class type. -/
def COMPLETE_OR_OPEN_TYPE_P (n : TreeNode) : Option Bool :=
  if COMPLETE_TYPE_P n then some true
  else if CLASS_TYPE_P n then TYPE_BEING_DEFINED n
  else some false

/-! ### The use_template classification -/

/-- DECL_USE_TEMPLATE: `DECL_LANG_SPECIFIC (NODE)->u.base.use_template`. -/
def DECL_USE_TEMPLATE (n : TreeNode) : Option (Fin 4) :=
  n.langDecl.map (fun u => u.base.use_template)

/-- CLASSTYPE_USE_TEMPLATE: `LANG_TYPE_CLASS_CHECK (NODE)->use_template`. -/
def CLASSTYPE_USE_TEMPLATE (n : TreeNode) : Option (Fin 4) :=
  (LANG_TYPE_CLASS_CHECK n).map LangType.use_template

/-- DECL_TEMPLATE_INSTANTIATION: `DECL_USE_TEMPLATE (NODE) & 1`, read as
a truth value. -/
def DECL_TEMPLATE_INSTANTIATION (n : TreeNode) : Option Bool :=
  (DECL_USE_TEMPLATE n).map (fun v => v.val &&& 1 ≠ 0)

/-- CLASSTYPE_TEMPLATE_INSTANTIATION: `CLASSTYPE_USE_TEMPLATE (NODE) & 1`. -/
def CLASSTYPE_TEMPLATE_INSTANTIATION (n : TreeNode) : Option Bool :=
  (CLASSTYPE_USE_TEMPLATE n).map (fun v => v.val &&& 1 ≠ 0)

/-- DECL_TEMPLATE_SPECIALIZATION: `DECL_USE_TEMPLATE (NODE) == 2`. -/
def DECL_TEMPLATE_SPECIALIZATION (n : TreeNode) : Option Bool :=
  (DECL_USE_TEMPLATE n).map (fun v => v = 2)

/-- CLASSTYPE_TEMPLATE_SPECIALIZATION: `CLASSTYPE_USE_TEMPLATE (NODE) == 2`. -/
def CLASSTYPE_TEMPLATE_SPECIALIZATION (n : TreeNode) : Option Bool :=
  (CLASSTYPE_USE_TEMPLATE n).map (fun v => v = 2)

/-- DECL_IMPLICIT_INSTANTIATION: `DECL_USE_TEMPLATE (NODE) == 1`. -/
def DECL_IMPLICIT_INSTANTIATION (n : TreeNode) : Option Bool :=
  (DECL_USE_TEMPLATE n).map (fun v => v = 1)

/-- CLASSTYPE_IMPLICIT_INSTANTIATION: `CLASSTYPE_USE_TEMPLATE (NODE) == 1`. -/
def CLASSTYPE_IMPLICIT_INSTANTIATION (n : TreeNode) : Option Bool :=
  (CLASSTYPE_USE_TEMPLATE n).map (fun v => v = 1)

/-- DECL_EXPLICIT_INSTANTIATION: `DECL_USE_TEMPLATE (NODE) == 3`. -/
def DECL_EXPLICIT_INSTANTIATION (n : TreeNode) : Option Bool :=
  (DECL_USE_TEMPLATE n).map (fun v => v = 3)

/-- CLASSTYPE_EXPLICIT_INSTANTIATION: `CLASSTYPE_USE_TEMPLATE (NODE) == 3`. -/
def CLASSTYPE_EXPLICIT_INSTANTIATION (n : TreeNode) : Option Bool :=
  (CLASSTYPE_USE_TEMPLATE n).map (fun v => v = 3)

/-- Store through the DECL_USE_TEMPLATE lvalue, shared by the three
SET_DECL_* macros: rewrites the use_template bitfield of the base prefix
of whichever variant the payload holds.  Without a payload the store has
no modelled effect (the source would dereference the null payload). -/
def TreeNode.setUseTemplate : TreeNode → Fin 4 → TreeNode
  | .mk c t y d (some u) lt nm cp r, v =>
      let u2 : LangDeclU :=
        match u with
        | .min m => .min { m with base := { m.base with use_template := v } }
        | .fn f => .fn { f with min := { f.min with base := { f.min.base with use_template := v } } }
        | .ns nn => .ns { nn with base := { nn.base with use_template := v } }
        | .parm p => .parm { p with base := { p.base with use_template := v } }
        | .decomp dd => .decomp { dd with min := { dd.min with base := { dd.min.base with use_template := v } } }
      .mk c t y d (some u2) lt nm cp r
  | n, _ => n

/-- SET_DECL_EXPLICIT_INSTANTIATION: `DECL_USE_TEMPLATE (NODE) = 3`. -/
def SET_DECL_EXPLICIT_INSTANTIATION (n : TreeNode) : TreeNode :=
  n.setUseTemplate 3

/-- Store through the CLASSTYPE_USE_TEMPLATE lvalue. -/
def TreeNode.setClasstypeUseTemplate : TreeNode → Fin 4 → TreeNode
  | .mk c t y d l (some lt) nm cp r, v =>
      .mk c t y d l (some { lt with use_template := v }) nm cp r
  | n, _ => n

/-- SET_CLASSTYPE_EXPLICIT_INSTANTIATION: `CLASSTYPE_USE_TEMPLATE (NODE) = 3`. -/
def SET_CLASSTYPE_EXPLICIT_INSTANTIATION (n : TreeNode) : TreeNode :=
  n.setClasstypeUseTemplate 3

/-! ### Constructor and destructor clones -/

/-- DECL_MAYBE_IN_CHARGE_CONSTRUCTOR_P: the name is the interned
`ctor_identifier` (pointer equality of interned identifiers is symbol
equality). -/
def DECL_MAYBE_IN_CHARGE_CONSTRUCTOR_P (n : TreeNode) : Bool :=
  n.declName = some ctor_identifier

/-- DECL_MAYBE_IN_CHARGE_DESTRUCTOR_P: the name is the interned
`dtor_identifier`. -/
def DECL_MAYBE_IN_CHARGE_DESTRUCTOR_P (n : TreeNode) : Bool :=
  n.declName = some dtor_identifier

/-- DECL_MAYBE_IN_CHARGE_CDTOR_P. -/
def DECL_MAYBE_IN_CHARGE_CDTOR_P (n : TreeNode) : Bool :=
  DECL_MAYBE_IN_CHARGE_CONSTRUCTOR_P n || DECL_MAYBE_IN_CHARGE_DESTRUCTOR_P n

/-- DECL_CLONED_FUNCTION_P: the declaration has a name, the name is a
constructor or destructor name, and the declaration is not the
maybe-in-charge master. -/
def DECL_CLONED_FUNCTION_P (n : TreeNode) : Bool :=
  match n.declName with
  | some nm => IDENTIFIER_CDTOR_P nm && !DECL_MAYBE_IN_CHARGE_CDTOR_P n
  | none => false

/-- The declarations visited by FOR_EACH_CLONE when `chain` is the
DECL_CHAIN successor list of `fn`: nothing unless `fn` is a
FUNCTION_DECL that is a maybe-in-charge constructor or destructor,
otherwise the successors up to the first one that is not a recognized
clone. -/
def FOR_EACH_CLONE_visits (fn : TreeNode) (chain : List TreeNode) : List TreeNode :=
  if TREE_CODE fn = .FUNCTION_DECL ∧ DECL_MAYBE_IN_CHARGE_CDTOR_P fn then
    chain.takeWhile DECL_CLONED_FUNCTION_P
  else []

/-! ### The type comparison modes and comptypes

The COMPARE_* constants come from the source; the body of `comptypes`
is outside this excerpt (the source keeps only the `same_type_p` and
`same_or_base_type_p` macro callers), so the predicate itself is
modelled from the spec below. -/

def COMPARE_STRICT : Nat := 0

def COMPARE_BASE : Nat := 1

def COMPARE_DERIVED : Nat := 2

def COMPARE_REDECLARATION : Nat := 4

def COMPARE_STRUCTURAL : Nat := 8

/-- A type node for the comparison fixture.  Interned type nodes compare
by identity, so the structural content is collapsed into the identity;
the inheritance graph is supplied separately as an environment mapping
each type identity to its direct-base identities. -/
structure CmpType where
  id : Nat
  deriving DecidableEq, Repr

/-- Bounded reachability in the inheritance graph: type `d` reaches base
`b` through direct-base edges within `fuel` steps. -/
def derivedFromIds (env : Nat → List Nat) : Nat → Nat → Nat → Bool
  | 0, _, _ => false
  | fuel + 1, d, b => (env d).any fun p => p = b || derivedFromIds env fuel p b

/-- Modelled from the spec: the body of `comptypes` is missing from this
excerpt.  Per the spec it is the structural same-type predicate over type
nodes guided by the comparison mode: COMPARE_BASE additionally accepts a
second type derived from the first, COMPARE_DERIVED is the same check in
reverse, and the remaining modes compare like COMPARE_STRICT. -/
def comptypes (env : Nat → List Nat) (fuel : Nat) (t1 t2 : CmpType)
    (strict : Nat) : Bool :=
  if strict = COMPARE_BASE then t1 = t2 || derivedFromIds env fuel t2.id t1.id
  else if strict = COMPARE_DERIVED then t1 = t2 || derivedFromIds env fuel t1.id t2.id
  else t1 = t2

/-- same_type_p: `comptypes ((TYPE1), (TYPE2), COMPARE_STRICT)`. -/
def same_type_p (env : Nat → List Nat) (fuel : Nat) (t1 t2 : CmpType) : Bool :=
  comptypes env fuel t1 t2 COMPARE_STRICT

/-- same_or_base_type_p: `comptypes ((TYPE1), (TYPE2), COMPARE_BASE)`. -/
def same_or_base_type_p (env : Nat → List Nat) (fuel : Nat) (t1 t2 : CmpType) : Bool :=
  comptypes env fuel t1 t2 COMPARE_BASE

/-! ### The expression-marking functions of rust-tree.cc

`mark_exp_read`, `convert_from_reference`, `mark_use` and its wrappers
operate on expression trees; the trees here carry the code, the type
slot, the first three operand slots, and the flags those functions read
or write (DECL_READ_P, TREE_SIDE_EFFECTS, TREE_THIS_VOLATILE, the
location-wrapper bit and the expression location).  The in-place stores
of the source become functional rewrites. -/

inductive RCode where
  | ERROR_MARK
  | VAR_DECL
  | PARM_DECL
  | ARRAY_REF
  | COMPONENT_REF
  | MODIFY_EXPR
  | REALPART_EXPR
  | IMAGPART_EXPR
  | NOP_EXPR
  | CONVERT_EXPR
  | ADDR_EXPR
  | INDIRECT_REF
  | FLOAT_EXPR
  | NON_DEPENDENT_EXPR
  | VIEW_CONVERT_EXPR
  | COMPOUND_EXPR
  | COND_EXPR
  | NON_LVALUE_EXPR
  | REFERENCE_TYPE
  | INTEGER_TYPE
  | INTEGER_CST
  | CALL_EXPR
  deriving DecidableEq, Repr

inductive RTree where
  | null
  | mk (code : RCode) (ty : RTree) (op0 op1 op2 : RTree)
      (readP : Bool) (sideEffects : Bool) (thisVolatile : Bool)
      (locWrapperP : Bool) (loc : Nat)
  deriving DecidableEq, Repr

/-- TREE_TYPE; the null tree for the null tree. -/
def RTree.treeType : RTree → RTree
  | .null => .null
  | .mk _ ty _ _ _ _ _ _ _ _ => ty

/-- TREE_OPERAND 0. -/
def RTree.op0 : RTree → RTree
  | .null => .null
  | .mk _ _ a _ _ _ _ _ _ _ => a

/-- TREE_SIDE_EFFECTS. -/
def RTree.sideEffects : RTree → Bool
  | .null => false
  | .mk _ _ _ _ _ _ se _ _ _ => se

/-- EXPR_LOCATION_WRAPPER_P of the host representation. -/
def RTree.locWrapperFlag : RTree → Bool
  | .null => false
  | .mk _ _ _ _ _ _ _ _ lw _ => lw

/-- True when the code of the node is `c`; false for the null tree. -/
def RTree.codeIs (c : RCode) : RTree → Bool
  | .null => false
  | .mk c2 _ _ _ _ _ _ _ _ _ => c2 = c

/-- The unique error_mark_node. -/
def error_mark_node : RTree :=
  .mk .ERROR_MARK .null .null .null .null false false false false 0

/-- error_operand_p of the host representation: the node is
error_mark_node, or is non-null with an error_mark_node type. -/
def error_operand_p (t : RTree) : Bool :=
  t = error_mark_node || (!(t = RTree.null) && t.treeType = error_mark_node)

/-- TYPE_REF_P: the code is REFERENCE_TYPE. -/
def TYPE_REF_P (t : RTree) : Bool := t.codeIs .REFERENCE_TYPE

/-- REFERENCE_REF_P: an INDIRECT_REF whose operand has a non-null
reference type. -/
def REFERENCE_REF_P (t : RTree) : Bool :=
  t.codeIs .INDIRECT_REF && !(t.op0.treeType = RTree.null)
    && TYPE_REF_P t.op0.treeType

/-- location_wrapper_p of the host representation: a NON_LVALUE_EXPR or
VIEW_CONVERT_EXPR node carrying the location-wrapper bit. -/
def location_wrapper_p (t : RTree) : Bool :=
  (t.codeIs .NON_LVALUE_EXPR || t.codeIs .VIEW_CONVERT_EXPR) && t.locWrapperFlag

/-- DECL_P restricted to the declaration codes modelled here. -/
def RTREE_DECL_P (t : RTree) : Bool :=
  t.codeIs .VAR_DECL || t.codeIs .PARM_DECL

/-- CONSTANT_CLASS_P restricted to the constant codes modelled here. -/
def RTREE_CONSTANT_CLASS_P (t : RTree) : Bool := t.codeIs .INTEGER_CST

/-- protected_set_expr_location: store the location slot. -/
def setExprLocation : RTree → Nat → RTree
  | .null, _ => .null
  | .mk c ty o0 o1 o2 rp se tv lw _, l => .mk c ty o0 o1 o2 rp se tv lw l

/-- mark_exp_read of rust-tree.cc: marks a variable or parameter as
read, looking through the transparent wrappers; the null guards of the
source are absorbed because the function maps the null tree to itself. -/
def mark_exp_read : RTree → RTree
  | .null => .null
  | .mk code ty o0 o1 o2 readP se tv lw loc =>
    match code with
    | .VAR_DECL | .PARM_DECL => .mk code ty o0 o1 o2 true se tv lw loc
    | .ARRAY_REF | .COMPONENT_REF | .MODIFY_EXPR | .REALPART_EXPR
    | .IMAGPART_EXPR | .NOP_EXPR | .CONVERT_EXPR | .ADDR_EXPR
    | .INDIRECT_REF | .FLOAT_EXPR | .NON_DEPENDENT_EXPR
    | .VIEW_CONVERT_EXPR =>
        .mk code ty (mark_exp_read o0) o1 o2 readP se tv lw loc
    | .COMPOUND_EXPR => .mk code ty o0 (mark_exp_read o1) o2 readP se tv lw loc
    | .COND_EXPR =>
        .mk code ty o0 (mark_exp_read o1) (mark_exp_read o2) readP se tv lw loc
    | _ => .mk code ty o0 o1 o2 readP se tv lw loc

/-- convert_from_reference of rust-tree.cc: on a value of reference type,
build an INDIRECT_REF of the referred-to type around the value (marked as
read), propagating the side-effect bit of the value into the new node. -/
def convert_from_reference (val : RTree) : RTree :=
  if !(val.treeType = RTree.null) && TYPE_REF_P val.treeType then
    let t := val.treeType.treeType
    let val2 := mark_exp_read val
    RTree.mk .INDIRECT_REF t val2 .null .null false val.sideEffects false false 0
  else val

/-- The size of the operand forest, the termination measure of
mark_use. -/
def RTree.size : RTree → Nat
  | .null => 0
  | .mk _ _ o0 o1 o2 _ _ _ _ _ => o0.size + o1.size + o2.size + 1

theorem mark_exp_read_size (t : RTree) : (mark_exp_read t).size = t.size := by
  induction t with
  | null => rfl
  | mk code ty o0 o1 o2 readP se tv lw loc ihty ih0 ih1 ih2 =>
    cases code <;> simp [mark_exp_read, RTree.size, ih0, ih1, ih2]

theorem size_lt_of_read (read_p : Bool) (expr : RTree)
    {code : RCode} {ty o0 o1 o2 : RTree} {rp se tv lw : Bool} {eloc : Nat}
    (h : (if read_p then mark_exp_read expr else expr)
      = RTree.mk code ty o0 o1 o2 rp se tv lw eloc) :
    o0.size < expr.size ∧ o1.size < expr.size ∧ o2.size < expr.size := by
  have h2 : (RTree.mk code ty o0 o1 o2 rp se tv lw eloc).size = expr.size := by
    rw [← h]
    cases read_p
    · rfl
    · simpa using mark_exp_read_size expr
  simp only [RTree.size] at h2
  omega

/-- mark_use of rust-tree.cc.  The null and error-operand guards come
first; with `reject_builtin` the function returns error_mark_node before
any marking or recursion; otherwise the expression is marked as read
when requested and the code dispatch recurses into the operands the
source selects, replacing them in the node and bailing out with
error_mark_node as soon as a recursive use is erroneous. -/
def mark_use (expr : RTree) (rvalue_p read_p : Bool) (loc : Nat)
    (reject_builtin : Bool) : RTree :=
  if expr = RTree.null then expr
  else if error_operand_p expr then expr
  else if reject_builtin then error_mark_node
  else
    match h : (if read_p then mark_exp_read expr else expr) with
    | .null => .null
    | .mk code ty o0 o1 o2 rp se tv lw eloc =>
      match code with
      | .COMPONENT_REF | .NON_DEPENDENT_EXPR =>
        let op := mark_use o0 rvalue_p read_p loc reject_builtin
        if op = error_mark_node then error_mark_node
        else .mk code ty op o1 o2 rp se tv lw eloc
      | .COMPOUND_EXPR =>
        let op := mark_use o1 rvalue_p read_p loc reject_builtin
        if op = error_mark_node then error_mark_node
        else .mk code ty o0 op o2 rp se tv lw eloc
      | .COND_EXPR =>
        if o1 = RTree.null then
          let op2 := mark_use o2 rvalue_p read_p loc reject_builtin
          if op2 = error_mark_node then error_mark_node
          else .mk code ty o0 o1 op2 rp se tv lw eloc
        else
          let op1 := mark_use o1 rvalue_p read_p loc reject_builtin
          if op1 = error_mark_node then error_mark_node
          else
            let op2 := mark_use o2 rvalue_p read_p loc reject_builtin
            if op2 = error_mark_node then error_mark_node
            else .mk code ty o0 op1 op2 rp se tv lw eloc
      | .INDIRECT_REF =>
        let cur := RTree.mk code ty o0 o1 o2 rp se tv lw eloc
        if REFERENCE_REF_P cur then
          let r := mark_use o0 true true loc reject_builtin
          if r = o0 then cur else convert_from_reference r
        else cur
      | .VIEW_CONVERT_EXPR =>
        let cur := RTree.mk code ty o0 o1 o2 rp se tv lw eloc
        if location_wrapper_p cur then
          let loc2 := eloc
          let nop := mark_use o0 rvalue_p read_p loc2 reject_builtin
          if nop = error_mark_node then error_mark_node
          else if o0 = nop then cur
          else if RTREE_DECL_P nop || RTREE_CONSTANT_CLASS_P nop then
            .mk (if rvalue_p then .NON_LVALUE_EXPR else code) ty nop o1 o2
              rp se tv lw eloc
          else setExprLocation nop loc2
        else
          let op := mark_use o0 rvalue_p read_p loc reject_builtin
          if op = error_mark_node then error_mark_node
          else .mk code ty op o1 o2 rp se tv lw eloc
      | .NOP_EXPR | .CONVERT_EXPR =>
        let op := mark_use o0 rvalue_p read_p loc reject_builtin
        if op = error_mark_node then error_mark_node
        else .mk code ty op o1 o2 rp se tv lw eloc
      | _ => .mk code ty o0 o1 o2 rp se tv lw eloc
termination_by expr.size
decreasing_by
  all_goals
    obtain ⟨ha, hb, hc⟩ := size_lt_of_read read_p expr h
    omega

/-- mark_rvalue_use of rust-tree.cc; the default of its reject_builtin
parameter in the source is true. -/
def mark_rvalue_use (e : RTree) (loc : Nat) (reject_builtin : Bool) : RTree :=
  mark_use e true true loc reject_builtin

/-- mark_lvalue_use of rust-tree.cc. -/
def mark_lvalue_use (expr : RTree) (input_location : Nat) : RTree :=
  mark_use expr false true input_location false

/-- mark_lvalue_use_nonread of rust-tree.cc. -/
def mark_lvalue_use_nonread (expr : RTree) (input_location : Nat) : RTree :=
  mark_use expr false false input_location false

/-! ## Fixture values used by witnesses and counterexamples -/

/-- An all-false generic or type flag bank. -/
def flags7 : Fin 7 → Bool := fun _ => false

/-- An all-false declaration flag bank. -/
def flags9 : Fin 9 → Bool := fun _ => false

/-- A minimal lang_decl payload with the given use_template value. -/
def minPayload (v : Fin 4) : LangDeclU :=
  .min ⟨⟨.lds_min, .lang_cplusplus, v⟩, none, none⟩

/-- A VAR_DECL node whose use_template field holds 1 (implicit
instantiation). -/
def implicitInstNode : TreeNode :=
  .mk .VAR_DECL flags7 flags7 flags9 (some (minPayload 1)) none none false none

/-- A VAR_DECL node whose use_template field holds 3 (explicit
instantiation). -/
def explicitInstNode : TreeNode :=
  .mk .VAR_DECL flags7 flags7 flags9 (some (minPayload 3)) none none false none

/-- An fn payload for a thunk whose fixed offset is 8. -/
def sampleThunkFn : LangDeclFn where
  min := ⟨⟨.lds_fn, .lang_cplusplus, 0⟩, none, none⟩
  ovl_op_code := 0
  global_ctor_p := false
  global_dtor_p := false
  static_function := false
  pure_virtual := false
  defaulted_p := false
  has_in_charge_parm_p := false
  has_vtt_parm_p := false
  pending_inline_p := false
  nonconverting := false
  thunk_p := true
  this_thunk_p := false
  omp_declare_reduction_p := false
  has_dependent_explicit_spec_p := false
  immediate_fn_p := false
  maybe_deleted := false
  coroutine_p := false
  implicit_constexpr := false
  befriending_classes := none
  context := none
  u5 := .fixed_offset 8
  u := .saved_auto_return_type none

/-- A FUNCTION_DECL node holding the thunk payload. -/
def sampleThunk : TreeNode :=
  .mk .FUNCTION_DECL flags7 flags7 flags9 (some (.fn sampleThunkFn)) none none
    false none

/-- The identifier of kind value 5 (an assignment operator name). -/
def assignOpIdent : Ident := ⟨true, false, true, 100⟩

/-! ## Claim C3: identifier category predicates -/

/-- Claim C3, counterexample to the claim as stated: on an identifier of
kind value 5 both IDENTIFIER_OVL_OP_P and IDENTIFIER_ASSIGN_OP_P return
true, so the six category predicates are not mutually exclusive. -/
theorem c3_counterexample :
    assignOpIdent.kindVal = 5
    ∧ IDENTIFIER_OVL_OP_P assignOpIdent = true
    ∧ IDENTIFIER_ASSIGN_OP_P assignOpIdent = true := by
  decide

/-- Claim C3, amended: for every identifier, the predicates
IDENTIFIER_KEYWORD_P, IDENTIFIER_CTOR_P, IDENTIFIER_DTOR_P,
IDENTIFIER_OVL_OP_P and IDENTIFIER_CONV_OP_P are pairwise mutually
exclusive, IDENTIFIER_ASSIGN_OP_P is exclusive with each of the former
four, and IDENTIFIER_ASSIGN_OP_P implies IDENTIFIER_OVL_OP_P: the
assignment-operator category is a subcategory of the overloadable
operator category, not a disjoint one.  Each predicate is a pure test of
the 3 kind bits. -/
theorem c3_identifier_categories (i : Ident) :
    (IDENTIFIER_KEYWORD_P i && IDENTIFIER_CTOR_P i) = false
    ∧ (IDENTIFIER_KEYWORD_P i && IDENTIFIER_DTOR_P i) = false
    ∧ (IDENTIFIER_KEYWORD_P i && IDENTIFIER_OVL_OP_P i) = false
    ∧ (IDENTIFIER_KEYWORD_P i && IDENTIFIER_ASSIGN_OP_P i) = false
    ∧ (IDENTIFIER_KEYWORD_P i && IDENTIFIER_CONV_OP_P i) = false
    ∧ (IDENTIFIER_CTOR_P i && IDENTIFIER_DTOR_P i) = false
    ∧ (IDENTIFIER_CTOR_P i && IDENTIFIER_OVL_OP_P i) = false
    ∧ (IDENTIFIER_CTOR_P i && IDENTIFIER_ASSIGN_OP_P i) = false
    ∧ (IDENTIFIER_CTOR_P i && IDENTIFIER_CONV_OP_P i) = false
    ∧ (IDENTIFIER_DTOR_P i && IDENTIFIER_OVL_OP_P i) = false
    ∧ (IDENTIFIER_DTOR_P i && IDENTIFIER_ASSIGN_OP_P i) = false
    ∧ (IDENTIFIER_DTOR_P i && IDENTIFIER_CONV_OP_P i) = false
    ∧ (IDENTIFIER_OVL_OP_P i && IDENTIFIER_CONV_OP_P i) = false
    ∧ (IDENTIFIER_ASSIGN_OP_P i && IDENTIFIER_CONV_OP_P i) = false
    ∧ (IDENTIFIER_ASSIGN_OP_P i && !IDENTIFIER_OVL_OP_P i) = false := by
  obtain ⟨b0, b1, b2, s⟩ := i
  cases b0 <;> cases b1 <;> cases b2 <;>
    simp [IDENTIFIER_KEYWORD_P, IDENTIFIER_CTOR_P, IDENTIFIER_DTOR_P,
      IDENTIFIER_OVL_OP_P, IDENTIFIER_ASSIGN_OP_P, IDENTIFIER_CONV_OP_P,
      IDENTIFIER_CDTOR_P, IDENTIFIER_ANY_OP_P, IDENTIFIER_KIND_BIT_0,
      IDENTIFIER_KIND_BIT_1, IDENTIFIER_KIND_BIT_2]

/-! ## Claim C1: the use_template classification -/

/-- Claim C1, counterexample to the claim as stated: the predicate
DECL_TEMPLATE_INSTANTIATION is the bit test `use_template & 1` and is
true both at value 1 and at value 3, so it is not an equality test
against any single value of the field. -/
theorem c1_counterexample :
    DECL_TEMPLATE_INSTANTIATION implicitInstNode = some true
    ∧ DECL_TEMPLATE_INSTANTIATION explicitInstNode = some true
    ∧ DECL_USE_TEMPLATE implicitInstNode = some 1
    ∧ DECL_USE_TEMPLATE explicitInstNode = some 3
    ∧ ¬ ∃ w : Fin 4, ∀ n : TreeNode,
        DECL_TEMPLATE_INSTANTIATION n
          = (DECL_USE_TEMPLATE n).map fun u => decide (u = w) := by
  refine ⟨rfl, rfl, rfl, rfl, ?_⟩
  rintro ⟨w, h⟩
  have h1 : (some true : Option Bool) = some (decide ((1 : Fin 4) = w)) :=
    h implicitInstNode
  have h3 : (some true : Option Bool) = some (decide ((3 : Fin 4) = w)) :=
    h explicitInstNode
  have hw1 : (1 : Fin 4) = w := of_decide_eq_true (Option.some.inj h1).symm
  have hw3 : (3 : Fin 4) = w := of_decide_eq_true (Option.some.inj h3).symm
  exact absurd (hw1.trans hw3.symm) (by decide)

/-- Updating the use_template field leaves a payload whose base carries
the new value. -/
theorem setUseTemplate_langDecl (n : TreeNode) (u : LangDeclU)
    (hu : n.langDecl = some u) (v : Fin 4) :
    ∃ u2, (n.setUseTemplate v).langDecl = some u2
      ∧ u2.base.use_template = v := by
  cases n with
  | mk c t y d l lt nm cp r =>
    simp only [TreeNode.langDecl] at hu
    subst hu
    cases u <;>
      exact ⟨_, rfl, rfl⟩

/-- Claim C1, amended: the use_template field of a declaration or class
type always holds one of the four values 0..3; the predicates
DECL_TEMPLATE_SPECIALIZATION, DECL_IMPLICIT_INSTANTIATION and
DECL_EXPLICIT_INSTANTIATION (and their CLASSTYPE twins) are equality
tests against 2, 1 and 3 respectively; DECL_TEMPLATE_INSTANTIATION and
CLASSTYPE_TEMPLATE_INSTANTIATION are not equality tests but the low-bit
mask test, true exactly at 1 and 3; and after setting the field to 3 the
explicit-instantiation predicate is true while the
implicit-instantiation predicate is false. -/
theorem c1_use_template_classification (n : TreeNode) (u : LangDeclU)
    (hu : n.langDecl = some u) (lt : LangType)
    (hlt : n.langType = some lt) :
    (DECL_USE_TEMPLATE n = some 0 ∨ DECL_USE_TEMPLATE n = some 1
      ∨ DECL_USE_TEMPLATE n = some 2 ∨ DECL_USE_TEMPLATE n = some 3)
    ∧ (CLASSTYPE_USE_TEMPLATE n = some 0 ∨ CLASSTYPE_USE_TEMPLATE n = some 1
      ∨ CLASSTYPE_USE_TEMPLATE n = some 2 ∨ CLASSTYPE_USE_TEMPLATE n = some 3)
    ∧ DECL_TEMPLATE_SPECIALIZATION n = some (decide (u.base.use_template = 2))
    ∧ DECL_IMPLICIT_INSTANTIATION n = some (decide (u.base.use_template = 1))
    ∧ DECL_EXPLICIT_INSTANTIATION n = some (decide (u.base.use_template = 3))
    ∧ CLASSTYPE_TEMPLATE_SPECIALIZATION n = some (decide (lt.use_template = 2))
    ∧ CLASSTYPE_IMPLICIT_INSTANTIATION n = some (decide (lt.use_template = 1))
    ∧ CLASSTYPE_EXPLICIT_INSTANTIATION n = some (decide (lt.use_template = 3))
    ∧ DECL_TEMPLATE_INSTANTIATION n
      = some (decide (u.base.use_template = 1 ∨ u.base.use_template = 3))
    ∧ CLASSTYPE_TEMPLATE_INSTANTIATION n
      = some (decide (lt.use_template = 1 ∨ lt.use_template = 3))
    ∧ DECL_EXPLICIT_INSTANTIATION (SET_DECL_EXPLICIT_INSTANTIATION n) = some true
    ∧ DECL_IMPLICIT_INSTANTIATION (SET_DECL_EXPLICIT_INSTANTIATION n) = some false
    ∧ CLASSTYPE_EXPLICIT_INSTANTIATION (SET_CLASSTYPE_EXPLICIT_INSTANTIATION n)
      = some true
    ∧ CLASSTYPE_IMPLICIT_INSTANTIATION (SET_CLASSTYPE_EXPLICIT_INSTANTIATION n)
      = some false := by
  have hmask : ∀ v : Fin 4,
      (decide (v.val &&& 1 ≠ 0)) = decide (v = 1 ∨ v = 3) := by decide
  have hfour : ∀ v : Fin 4, v = 0 ∨ v = 1 ∨ v = 2 ∨ v = 3 := by decide
  obtain ⟨u2, hu2, hv2⟩ := setUseTemplate_langDecl n u hu 3
  cases n with
  | mk c t y d l lt0 nm cp r =>
    simp only [TreeNode.langDecl] at hu
    simp only [TreeNode.langType] at hlt
    subst hu
    subst hlt
    refine ⟨?_, ?_, ?_, ?_, ?_, ?_, ?_, ?_, ?_, ?_, ?_, ?_, ?_, ?_⟩
    · rcases hfour u.base.use_template with h | h | h | h <;>
        simp [DECL_USE_TEMPLATE, TreeNode.langDecl, h]
    · rcases hfour lt.use_template with h | h | h | h <;>
        simp [CLASSTYPE_USE_TEMPLATE, LANG_TYPE_CLASS_CHECK,
          TYPE_LANG_SPECIFIC, TreeNode.langType, h]
    · rfl
    · rfl
    · rfl
    · rfl
    · rfl
    · rfl
    · rw [show DECL_TEMPLATE_INSTANTIATION
            (TreeNode.mk c t y d (some u) (some lt) nm cp r)
          = some (decide (u.base.use_template.val &&& 1 ≠ 0)) from rfl, hmask]
    · rw [show CLASSTYPE_TEMPLATE_INSTANTIATION
            (TreeNode.mk c t y d (some u) (some lt) nm cp r)
          = some (decide (lt.use_template.val &&& 1 ≠ 0)) from rfl, hmask]
    · simp [SET_DECL_EXPLICIT_INSTANTIATION] at hu2 hv2 ⊢
      simp [DECL_EXPLICIT_INSTANTIATION, DECL_USE_TEMPLATE, hu2, hv2]
    · simp [SET_DECL_EXPLICIT_INSTANTIATION] at hu2 hv2 ⊢
      simp [DECL_IMPLICIT_INSTANTIATION, DECL_USE_TEMPLATE, hu2, hv2]
    · simp [SET_CLASSTYPE_EXPLICIT_INSTANTIATION,
        TreeNode.setClasstypeUseTemplate, CLASSTYPE_EXPLICIT_INSTANTIATION,
        CLASSTYPE_USE_TEMPLATE, LANG_TYPE_CLASS_CHECK, TYPE_LANG_SPECIFIC,
        TreeNode.langType]
    · simp [SET_CLASSTYPE_EXPLICIT_INSTANTIATION,
        TreeNode.setClasstypeUseTemplate, CLASSTYPE_IMPLICIT_INSTANTIATION,
        CLASSTYPE_USE_TEMPLATE, LANG_TYPE_CLASS_CHECK, TYPE_LANG_SPECIFIC,
        TreeNode.langType]

/-- A VAR_DECL node carrying both a declaration payload and a class-type
payload, used to instantiate the C1 theorem. -/
def c1Node : TreeNode :=
  .mk .VAR_DECL flags7 flags7 flags9 (some (minPayload 2))
    (some ⟨0, false, 2⟩) none false none

/-- Claim C1 witness: the amended classification at a concrete node whose
use_template fields hold 2. -/
theorem c1_witness :
    c1Node.langDecl = some (minPayload 2)
    ∧ c1Node.langType = some ⟨0, false, 2⟩
    ∧ (DECL_USE_TEMPLATE c1Node = some 0 ∨ DECL_USE_TEMPLATE c1Node = some 1
      ∨ DECL_USE_TEMPLATE c1Node = some 2 ∨ DECL_USE_TEMPLATE c1Node = some 3) :=
  ⟨rfl, rfl, (c1_use_template_classification c1Node (minPayload 2) rfl
    ⟨0, false, 2⟩ rfl).1⟩

/-! ## Claim C2: the thunk union of lang_decl_fn -/

/-- Claim C2, counterexample to the claim as stated: on a FUNCTION_DECL
node whose payload selector is fn with thunk_p set, the fixed-offset
read returns the stored value, but DECL_CLONED_FUNCTION is not rejected
by its checked accessor: the only check it performs is
FUNCTION_DECL_CHECK on the tree code, which the thunk node passes. -/
theorem c2_counterexample :
    sampleThunk.langDecl = some (.fn sampleThunkFn)
    ∧ sampleThunkFn.thunk_p = true
    ∧ TREE_CODE sampleThunk = .FUNCTION_DECL
    ∧ THUNK_FIXED_OFFSET sampleThunk = .ok (some 8)
    ∧ DECL_CLONED_FUNCTION sampleThunk = .ok none := by
  exact ⟨rfl, rfl, rfl, rfl, rfl⟩

/-- Claim C2, amended: on every FUNCTION_DECL node with an fn payload
whose thunk_p is set, storing a fixed offset and reading it back through
the checked THUNK_FIXED_OFFSET accessor returns the stored value; the
cloned-function interpretation of the same union slot on that node is
not rejected by the checked accessor — DECL_CLONED_FUNCTION checks only
that the node is a FUNCTION_DECL and its union read yields no
cloned-function tree on a thunk. -/
theorem c2_thunk_union (n : TreeNode) (f : LangDeclFn)
    (hf : n.langDecl = some (.fn f)) (hc : n.code = .FUNCTION_DECL)
    (ht : f.thunk_p = true) (v : Int) :
    THUNK_FIXED_OFFSET (n.setFixedOffset v) = .ok (some v)
    ∧ DECL_CLONED_FUNCTION (n.setFixedOffset v) = .ok none
    ∧ DECL_CLONED_FUNCTION n = .ok (LangDeclU.readClonedFunction (.fn f))
    ∧ ∀ e, DECL_CLONED_FUNCTION n ≠ .error e := by
  cases n with
  | mk c t y d l lt nm cp r =>
    simp only [TreeNode.langDecl] at hf
    simp only [TreeNode.code] at hc
    subst hf
    subst hc
    refine ⟨?_, ?_, ?_, ?_⟩
    · simp [TreeNode.setFixedOffset, THUNK_FIXED_OFFSET, THUNK_FUNCTION_CHECK,
        TreeNode.code, TreeNode.langDecl, LangDeclU.readFn, ht,
        LangDeclU.readFixedOffset, Except.map]
    · simp [TreeNode.setFixedOffset, DECL_CLONED_FUNCTION,
        FUNCTION_DECL_CHECK, TREE_CHECK, TreeNode.code, TreeNode.langDecl,
        LangDeclU.readClonedFunction, Except.map]
    · simp [DECL_CLONED_FUNCTION, FUNCTION_DECL_CHECK, TREE_CHECK,
        TreeNode.code, TreeNode.langDecl, Except.map]
    · intro e
      simp [DECL_CLONED_FUNCTION, FUNCTION_DECL_CHECK, TREE_CHECK,
        TreeNode.code, TreeNode.langDecl, Except.map]

/-- Claim C2 witness: the amended property at the concrete thunk node,
storing offset 5. -/
theorem c2_witness :
    sampleThunk.langDecl = some (.fn sampleThunkFn)
    ∧ TreeNode.code sampleThunk = .FUNCTION_DECL
    ∧ sampleThunkFn.thunk_p = true
    ∧ THUNK_FIXED_OFFSET (sampleThunk.setFixedOffset 5) = .ok (some 5) :=
  ⟨rfl, rfl, rfl,
    (c2_thunk_union sampleThunk sampleThunkFn rfl rfl rfl 5).1⟩

/-! ## Claim C4: the FOR_EACH_CLONE walk -/

/-- Every element of a takeWhile prefix whose predecessors within the
prefix all satisfy the predicate is reached: if positions 0..k of the
list all satisfy `p`, position k lies in the takeWhile prefix. -/
theorem takeWhile_get_mem {α : Type} (p : α → Bool) :
    ∀ (l : List α) (k : Nat) (hk : k < l.length),
      (∀ j (hj : j ≤ k), p (l.get ⟨j, lt_of_le_of_lt hj hk⟩) = true) →
      l.get ⟨k, hk⟩ ∈ l.takeWhile p
  | [], k, hk, _ => absurd hk (by simp)
  | x :: xs, 0, _, h => by
    have hx := h 0 (Nat.le_refl 0)
    simp only [List.get] at hx ⊢
    simp [List.takeWhile, hx]
  | x :: xs, k + 1, hk, h => by
    have hx := h 0 (Nat.zero_le _)
    simp only [List.get] at hx
    have ih := takeWhile_get_mem p xs k (Nat.lt_of_succ_lt_succ hk)
      (fun j hj => h (j + 1) (Nat.succ_le_succ hj))
    simp only [List.get]
    simp only [List.takeWhile, hx]
    exact List.mem_cons_of_mem x ih

/-- The dropWhile remainder is empty or starts with an element failing
the predicate. -/
theorem dropWhile_head_false {α : Type} (p : α → Bool) :
    ∀ l : List α,
      l.dropWhile p = [] ∨
        ∃ x rest, l.dropWhile p = x :: rest ∧ p x = false
  | [] => .inl rfl
  | x :: xs => by
    by_cases hx : p x = true
    · simpa [List.dropWhile, hx] using dropWhile_head_false p xs
    · right
      exact ⟨x, xs, by simp [List.dropWhile, hx],
        by simpa using hx⟩

/-- Claim C4: FOR_EACH_CLONE visits nothing unless FN is a FUNCTION_DECL
that is a maybe-in-charge constructor or destructor; when it is, the
visited declarations form the prefix of the successor chain, each
visited declaration is a recognized clone, the walk runs to the end of
the chain or stops right before the first successor that is not a
recognized clone, and every chain position whose predecessors all are
recognized clones is visited. -/
theorem c4_for_each_clone (fn : TreeNode) (chain : List TreeNode) :
    (¬(TREE_CODE fn = .FUNCTION_DECL ∧ DECL_MAYBE_IN_CHARGE_CDTOR_P fn = true) →
      FOR_EACH_CLONE_visits fn chain = [])
    ∧ (∃ rest, chain = FOR_EACH_CLONE_visits fn chain ++ rest)
    ∧ (∀ c ∈ FOR_EACH_CLONE_visits fn chain, DECL_CLONED_FUNCTION_P c = true)
    ∧ ((TREE_CODE fn = .FUNCTION_DECL ∧ DECL_MAYBE_IN_CHARGE_CDTOR_P fn = true) →
      (FOR_EACH_CLONE_visits fn chain = chain
        ∨ ∃ x rest, chain = FOR_EACH_CLONE_visits fn chain ++ x :: rest
            ∧ DECL_CLONED_FUNCTION_P x = false))
    ∧ ((TREE_CODE fn = .FUNCTION_DECL ∧ DECL_MAYBE_IN_CHARGE_CDTOR_P fn = true) →
      ∀ (k : Nat) (hk : k < chain.length),
        (∀ j (hj : j ≤ k),
          DECL_CLONED_FUNCTION_P (chain.get ⟨j, lt_of_le_of_lt hj hk⟩) = true) →
        chain.get ⟨k, hk⟩ ∈ FOR_EACH_CLONE_visits fn chain) := by
  by_cases hcond : TREE_CODE fn = .FUNCTION_DECL
      ∧ DECL_MAYBE_IN_CHARGE_CDTOR_P fn = true
  · refine ⟨fun hc => absurd hcond hc, ?_, ?_, ?_, ?_⟩
    · refine ⟨chain.dropWhile DECL_CLONED_FUNCTION_P, ?_⟩
      simp [FOR_EACH_CLONE_visits, hcond]
    · intro c hc
      simp only [FOR_EACH_CLONE_visits, if_pos hcond] at hc
      exact List.mem_takeWhile_imp hc
    · intro _
      rcases dropWhile_head_false DECL_CLONED_FUNCTION_P chain with hnil | ⟨x, rest, hx, hpx⟩
      · left
        simp only [FOR_EACH_CLONE_visits, if_pos hcond]
        have := List.takeWhile_append_dropWhile
          (p := DECL_CLONED_FUNCTION_P) (l := chain)
        rw [hnil, List.append_nil] at this
        exact this
      · right
        refine ⟨x, rest, ?_, hpx⟩
        simp only [FOR_EACH_CLONE_visits, if_pos hcond]
        conv_lhs => rw [← List.takeWhile_append_dropWhile
          (p := DECL_CLONED_FUNCTION_P) (l := chain)]
        rw [hx]
    · intro _ k hk h
      simp only [FOR_EACH_CLONE_visits, if_pos hcond]
      exact takeWhile_get_mem DECL_CLONED_FUNCTION_P chain k hk h
  · refine ⟨fun _ => ?_, ⟨chain, ?_⟩, ?_, fun hc => absurd hc hcond,
      fun hc => absurd hc hcond⟩
    · simp [FOR_EACH_CLONE_visits, hcond]
    · simp [FOR_EACH_CLONE_visits, hcond]
    · intro c hc
      simp [FOR_EACH_CLONE_visits, hcond] at hc

/-- The maybe-in-charge constructor master of the C4 fixture. -/
def masterCtor : TreeNode :=
  .mk .FUNCTION_DECL flags7 flags7 flags9 none none (some ctor_identifier)
    false none

/-- The complete-object clone of the C4 fixture. -/
def completeCtorClone : TreeNode :=
  .mk .FUNCTION_DECL flags7 flags7 flags9 none none
    (some complete_ctor_identifier) false none

/-- The base-object clone of the C4 fixture. -/
def baseCtorClone : TreeNode :=
  .mk .FUNCTION_DECL flags7 flags7 flags9 none none
    (some base_ctor_identifier) false none

/-- A successor that is not a clone (an unnamed variable). -/
def plainVarDecl : TreeNode :=
  .mk .VAR_DECL flags7 flags7 flags9 none none none false none

/-- Claim C4 witness: on the concrete chain
complete-clone, base-clone, plain variable after a maybe-in-charge
constructor, the walk visits exactly the two clones and stops at the
plain variable. -/
theorem c4_witness :
    (TREE_CODE masterCtor = .FUNCTION_DECL
      ∧ DECL_MAYBE_IN_CHARGE_CDTOR_P masterCtor = true)
    ∧ (FOR_EACH_CLONE_visits masterCtor
        [completeCtorClone, baseCtorClone, plainVarDecl]
        = [completeCtorClone, baseCtorClone, plainVarDecl]
      ∨ ∃ x rest, [completeCtorClone, baseCtorClone, plainVarDecl]
          = FOR_EACH_CLONE_visits masterCtor
              [completeCtorClone, baseCtorClone, plainVarDecl] ++ x :: rest
          ∧ DECL_CLONED_FUNCTION_P x = false) :=
  ⟨⟨rfl, rfl⟩, (c4_for_each_clone masterCtor
    [completeCtorClone, baseCtorClone, plainVarDecl]).2.2.2.1 ⟨rfl, rfl⟩⟩

/-! ## Claim C5: parity of the checked and release lang_decl accessors -/

theorem langDeclMinParity (n : TreeNode) :
    ((∃ e, LANG_DECL_MIN_CHECK_checked n = .error e)
      ↔ ¬ LANG_DECL_HAS_MIN n = true)
    ∧ (LANG_DECL_HAS_MIN n = true →
      LANG_DECL_MIN_CHECK_checked n = .ok (LANG_DECL_MIN_CHECK_release n)) := by
  by_cases hg : LANG_DECL_HAS_MIN n = true
  · exact ⟨by simp [LANG_DECL_MIN_CHECK_checked, hg],
      fun _ => by simp [LANG_DECL_MIN_CHECK_checked,
        LANG_DECL_MIN_CHECK_release, hg]⟩
  · exact ⟨by simp [LANG_DECL_MIN_CHECK_checked, hg], fun hc => absurd hc hg⟩

theorem langDeclFnParity (n : TreeNode) (v : LangDeclU)
    (hv : strippedLangDecl n = some v) :
    ((∃ e, LANG_DECL_FN_CHECK_checked n = .error e)
      ↔ ¬(DECL_DECLARES_FUNCTION_P n = true ∧ v.base.selector = .lds_fn))
    ∧ ((DECL_DECLARES_FUNCTION_P n = true ∧ v.base.selector = .lds_fn) →
      LANG_DECL_FN_CHECK_checked n = .ok (LANG_DECL_FN_CHECK_release n)) := by
  constructor
  · by_cases h1 : DECL_DECLARES_FUNCTION_P n = true <;>
      by_cases h2 : v.base.selector = .lds_fn <;>
      simp [LANG_DECL_FN_CHECK_checked, hv, h1, h2]
  · rintro ⟨h1, h2⟩
    simp [LANG_DECL_FN_CHECK_checked, LANG_DECL_FN_CHECK_release, hv, h1, h2]

theorem langDeclNsParity (n : TreeNode) (u : LangDeclU)
    (hu : n.langDecl = some u) :
    ((∃ e, LANG_DECL_NS_CHECK_checked n = .error e)
      ↔ ¬(TREE_CODE n = .NAMESPACE_DECL ∧ u.base.selector = .lds_ns))
    ∧ ((TREE_CODE n = .NAMESPACE_DECL ∧ u.base.selector = .lds_ns) →
      LANG_DECL_NS_CHECK_checked n = .ok (LANG_DECL_NS_CHECK_release n)) := by
  constructor
  · by_cases h1 : n.code = .NAMESPACE_DECL <;>
      by_cases h2 : u.base.selector = .lds_ns <;>
      simp [LANG_DECL_NS_CHECK_checked, TREE_CODE, hu, h1, h2]
  · rintro ⟨h1, h2⟩
    simp only [TREE_CODE] at h1
    simp [LANG_DECL_NS_CHECK_checked, LANG_DECL_NS_CHECK_release,
      hu, h1, h2]

theorem langDeclParmParity (n : TreeNode) (u : LangDeclU)
    (hu : n.langDecl = some u) :
    ((∃ e, LANG_DECL_PARM_CHECK_checked n = .error e)
      ↔ ¬(TREE_CODE n = .PARM_DECL ∧ u.base.selector = .lds_parm))
    ∧ ((TREE_CODE n = .PARM_DECL ∧ u.base.selector = .lds_parm) →
      LANG_DECL_PARM_CHECK_checked n = .ok (LANG_DECL_PARM_CHECK_release n)) := by
  constructor
  · by_cases h1 : n.code = .PARM_DECL <;>
      by_cases h2 : u.base.selector = .lds_parm <;>
      simp [LANG_DECL_PARM_CHECK_checked, TREE_CODE, hu, h1, h2]
  · rintro ⟨h1, h2⟩
    simp only [TREE_CODE] at h1
    simp [LANG_DECL_PARM_CHECK_checked, LANG_DECL_PARM_CHECK_release,
      hu, h1, h2]

theorem langDeclDecompParity (n : TreeNode) (u : LangDeclU)
    (hu : n.langDecl = some u) :
    ((∃ e, LANG_DECL_DECOMP_CHECK_checked n = .error e)
      ↔ ¬(VAR_P n = true ∧ u.base.selector = .lds_decomp))
    ∧ ((VAR_P n = true ∧ u.base.selector = .lds_decomp) →
      LANG_DECL_DECOMP_CHECK_checked n
        = .ok (LANG_DECL_DECOMP_CHECK_release n)) := by
  constructor
  · by_cases h1 : VAR_P n = true <;>
      by_cases h2 : u.base.selector = .lds_decomp <;>
      simp [LANG_DECL_DECOMP_CHECK_checked, hu, h1, h2]
  · rintro ⟨h1, h2⟩
    simp [LANG_DECL_DECOMP_CHECK_checked, LANG_DECL_DECOMP_CHECK_release,
      hu, h1, h2]

/-- Claim C5: each of the five lang_decl variant accessors raises the
checked-build internal error exactly when the guard the source tests
fails (the tree-code requirement, and for the selector-checking
accessors the selector requirement, of the variant the accessor serves);
and on every well-formed input the checked accessor returns exactly the
release-build access. -/
theorem c5_accessor_parity (n : TreeNode) (u v : LangDeclU)
    (hu : n.langDecl = some u) (hv : strippedLangDecl n = some v) :
    (((∃ e, LANG_DECL_MIN_CHECK_checked n = .error e)
        ↔ ¬ LANG_DECL_HAS_MIN n = true)
      ∧ (LANG_DECL_HAS_MIN n = true →
        LANG_DECL_MIN_CHECK_checked n = .ok (LANG_DECL_MIN_CHECK_release n)))
    ∧ (((∃ e, LANG_DECL_FN_CHECK_checked n = .error e)
        ↔ ¬(DECL_DECLARES_FUNCTION_P n = true ∧ v.base.selector = .lds_fn))
      ∧ ((DECL_DECLARES_FUNCTION_P n = true ∧ v.base.selector = .lds_fn) →
        LANG_DECL_FN_CHECK_checked n = .ok (LANG_DECL_FN_CHECK_release n)))
    ∧ (((∃ e, LANG_DECL_NS_CHECK_checked n = .error e)
        ↔ ¬(TREE_CODE n = .NAMESPACE_DECL ∧ u.base.selector = .lds_ns))
      ∧ ((TREE_CODE n = .NAMESPACE_DECL ∧ u.base.selector = .lds_ns) →
        LANG_DECL_NS_CHECK_checked n = .ok (LANG_DECL_NS_CHECK_release n)))
    ∧ (((∃ e, LANG_DECL_PARM_CHECK_checked n = .error e)
        ↔ ¬(TREE_CODE n = .PARM_DECL ∧ u.base.selector = .lds_parm))
      ∧ ((TREE_CODE n = .PARM_DECL ∧ u.base.selector = .lds_parm) →
        LANG_DECL_PARM_CHECK_checked n = .ok (LANG_DECL_PARM_CHECK_release n)))
    ∧ (((∃ e, LANG_DECL_DECOMP_CHECK_checked n = .error e)
        ↔ ¬(VAR_P n = true ∧ u.base.selector = .lds_decomp))
      ∧ ((VAR_P n = true ∧ u.base.selector = .lds_decomp) →
        LANG_DECL_DECOMP_CHECK_checked n
          = .ok (LANG_DECL_DECOMP_CHECK_release n))) :=
  ⟨langDeclMinParity n, langDeclFnParity n v hv, langDeclNsParity n u hu,
    langDeclParmParity n u hu, langDeclDecompParity n u hu⟩

/-- The parameter payload of the C5 fixture. -/
def parmPayload : LangDeclU :=
  .parm ⟨⟨.lds_parm, .lang_cplusplus, 0⟩, 1, 0⟩

/-- A PARM_DECL node with a parm payload. -/
def parmNode : TreeNode :=
  .mk .PARM_DECL flags7 flags7 flags9 (some parmPayload) none none false none

/-- Claim C5 witness: at a concrete PARM_DECL node with a parm payload
the checked accessor agrees with the release accessor. -/
theorem c5_witness :
    parmNode.langDecl = some parmPayload
    ∧ strippedLangDecl parmNode = some parmPayload
    ∧ (TREE_CODE parmNode = .PARM_DECL ∧ parmPayload.base.selector = .lds_parm)
    ∧ LANG_DECL_PARM_CHECK_checked parmNode
      = .ok (LANG_DECL_PARM_CHECK_release parmNode) :=
  ⟨rfl, rfl, ⟨rfl, rfl⟩,
    (c5_accessor_parity parmNode parmPayload parmPayload rfl rfl).2.2.2.1.2
      ⟨rfl, rfl⟩⟩

/-! ## Claim C6: LANG_TYPE_CLASS_CHECK performs no verification -/

/-- A FUNCTION_DECL (not a type node at all) carrying a class-type
payload. -/
def wrongKindNode : TreeNode :=
  .mk .FUNCTION_DECL flags7 flags7 flags9 none (some ⟨1, false, 0⟩) none
    false none

/-- Claim C6: LANG_TYPE_CLASS_CHECK is exactly TYPE_LANG_SPECIFIC on
every node and never raises the checked-build internal error; reading a
class-type extension field such as TYPE_GETS_DELETE through it succeeds
on a node of the wrong kind, while a LANG_DECL family accessor on the
same node is rejected. -/
theorem c6_lang_type_class_check_unchecked :
    (∀ n : TreeNode, LANG_TYPE_CLASS_CHECK n = TYPE_LANG_SPECIFIC n)
    ∧ (∀ (n : TreeNode) (lt : LangType), n.langType = some lt →
        TYPE_GETS_DELETE n = some lt.gets_delete)
    ∧ (∃ (n : TreeNode) (lt : LangType), n.langType = some lt
        ∧ ¬ RECORD_OR_UNION_CODE_P (TREE_CODE n) = true
        ∧ TYPE_GETS_DELETE n = some lt.gets_delete
        ∧ (∃ e, LANG_DECL_NS_CHECK_checked n = .error e)) := by
  refine ⟨fun n => rfl, fun n lt h => ?_, ?_⟩
  · simp [TYPE_GETS_DELETE, LANG_TYPE_CLASS_CHECK, TYPE_LANG_SPECIFIC, h]
  · refine ⟨wrongKindNode, ⟨1, false, 0⟩, rfl, by decide, rfl,
      ⟨.lang_check_failed, ?_⟩⟩
    simp [LANG_DECL_NS_CHECK_checked, TreeNode.code, wrongKindNode]

/-- Claim C6 witness: the field read at the concrete wrong-kind node. -/
theorem c6_witness :
    wrongKindNode.langType = some ⟨1, false, 0⟩
    ∧ TYPE_GETS_DELETE wrongKindNode
      = some (LangType.gets_delete ⟨1, false, 0⟩) :=
  ⟨rfl, c6_lang_type_class_check_unchecked.2.1 wrongKindNode ⟨1, false, 0⟩ rfl⟩

/-! ## Claim C7: COMPLETE_OR_OPEN_TYPE_P -/

/-- Claim C7: the lookup-readiness predicate is defined on every node
whose class payload is present when needed, and it is true exactly when
the type is complete or is a class type whose being_defined flag is
set. -/
theorem c7_complete_or_open (n : TreeNode)
    (h : CLASS_TYPE_P n = true → (TYPE_LANG_SPECIFIC n).isSome = true) :
    (COMPLETE_OR_OPEN_TYPE_P n).isSome = true
    ∧ (COMPLETE_OR_OPEN_TYPE_P n = some true ↔
        (COMPLETE_TYPE_P n = true
          ∨ (CLASS_TYPE_P n = true ∧ TYPE_BEING_DEFINED n = some true))) := by
  by_cases hc : COMPLETE_TYPE_P n = true
  · simp [COMPLETE_OR_OPEN_TYPE_P, hc]
  · by_cases hcl : CLASS_TYPE_P n = true
    · obtain ⟨lt, hlt⟩ := Option.isSome_iff_exists.mp (h hcl)
      simp [COMPLETE_OR_OPEN_TYPE_P, hc, hcl, TYPE_BEING_DEFINED,
        LANG_TYPE_CLASS_CHECK, hlt]
    · simp [COMPLETE_OR_OPEN_TYPE_P, hc, hcl]

/-- A type-bank with only TYPE_LANG_FLAG_5 set (the class bit). -/
def classFlag5 : Fin 7 → Bool := fun i => i = 5

/-- An incomplete RECORD_TYPE marked as a class and as being defined. -/
def openClassNode : TreeNode :=
  .mk .RECORD_TYPE flags7 classFlag5 flags9 none (some ⟨0, true, 0⟩) none
    false none

/-- Claim C7 witness: the open class fixture is lookup-ready because its
being_defined flag is set although it is incomplete. -/
theorem c7_witness :
    (CLASS_TYPE_P openClassNode = true
      → (TYPE_LANG_SPECIFIC openClassNode).isSome = true)
    ∧ (COMPLETE_OR_OPEN_TYPE_P openClassNode = some true ↔
        (COMPLETE_TYPE_P openClassNode = true
          ∨ (CLASS_TYPE_P openClassNode = true
            ∧ TYPE_BEING_DEFINED openClassNode = some true))) :=
  ⟨fun _ => rfl, (c7_complete_or_open openClassNode (fun _ => rfl)).2⟩

/-! ## Claim C8: the three flag banks are disjoint storage -/

/-- Claim C8: storing to a slot of one bank changes exactly that slot:
every other index of the same bank and both other banks read back
unchanged, for each of the three banks. -/
theorem c8_flag_banks_disjoint (n : TreeNode) (i j : Fin 7) (i9 j9 : Fin 9)
    (v : Bool) :
    (i ≠ j → TREE_LANG_FLAG (n.setTreeLangFlag i v) j = TREE_LANG_FLAG n j)
    ∧ TYPE_LANG_FLAG (n.setTreeLangFlag i v) j = TYPE_LANG_FLAG n j
    ∧ DECL_LANG_FLAG (n.setTreeLangFlag i v) i9 = DECL_LANG_FLAG n i9
    ∧ TREE_LANG_FLAG (n.setTreeLangFlag i v) i = v
    ∧ (i ≠ j → TYPE_LANG_FLAG (n.setTypeLangFlag i v) j = TYPE_LANG_FLAG n j)
    ∧ TREE_LANG_FLAG (n.setTypeLangFlag i v) j = TREE_LANG_FLAG n j
    ∧ DECL_LANG_FLAG (n.setTypeLangFlag i v) i9 = DECL_LANG_FLAG n i9
    ∧ TYPE_LANG_FLAG (n.setTypeLangFlag i v) i = v
    ∧ (i9 ≠ j9 →
      DECL_LANG_FLAG (n.setDeclLangFlag i9 v) j9 = DECL_LANG_FLAG n j9)
    ∧ TREE_LANG_FLAG (n.setDeclLangFlag i9 v) j = TREE_LANG_FLAG n j
    ∧ TYPE_LANG_FLAG (n.setDeclLangFlag i9 v) j = TYPE_LANG_FLAG n j
    ∧ DECL_LANG_FLAG (n.setDeclLangFlag i9 v) i9 = v := by
  cases n with
  | mk c t y d l lt nm cp r =>
    refine ⟨fun h => ?_, rfl, rfl, ?_, fun h => ?_, rfl, rfl, ?_,
      fun h => ?_, rfl, rfl, ?_⟩
    · simp only [TreeNode.setTreeLangFlag, TREE_LANG_FLAG,
        TreeNode.treeLangFlags]
      exact Function.update_noteq (Ne.symm h) _ _
    · simp only [TreeNode.setTreeLangFlag, TREE_LANG_FLAG,
        TreeNode.treeLangFlags]
      exact Function.update_same _ _ _
    · simp only [TreeNode.setTypeLangFlag, TYPE_LANG_FLAG,
        TreeNode.typeLangFlags]
      exact Function.update_noteq (Ne.symm h) _ _
    · simp only [TreeNode.setTypeLangFlag, TYPE_LANG_FLAG,
        TreeNode.typeLangFlags]
      exact Function.update_same _ _ _
    · simp only [TreeNode.setDeclLangFlag, DECL_LANG_FLAG,
        TreeNode.declLangFlags]
      exact Function.update_noteq (Ne.symm h) _ _
    · simp only [TreeNode.setDeclLangFlag, DECL_LANG_FLAG,
        TreeNode.declLangFlags]
      exact Function.update_same _ _ _

/-- Claim C8 witness: the frame property at a concrete node, storing
TREE_LANG_FLAG_0 (the bank and index of SLICE_FLAG) and checking slot 1
of the same bank and the other two banks. -/
theorem c8_witness :
    ((0 : Fin 7) ≠ (1 : Fin 7))
    ∧ TREE_LANG_FLAG (plainVarDecl.setTreeLangFlag 0 true) 1
      = TREE_LANG_FLAG plainVarDecl 1
    ∧ TYPE_LANG_FLAG (plainVarDecl.setTreeLangFlag 0 true) 1
      = TYPE_LANG_FLAG plainVarDecl 1
    ∧ DECL_LANG_FLAG (plainVarDecl.setTreeLangFlag 0 true) 2
      = DECL_LANG_FLAG plainVarDecl 2
    ∧ TREE_LANG_FLAG (plainVarDecl.setTreeLangFlag 0 true) 0 = true :=
  ⟨by decide,
    (c8_flag_banks_disjoint plainVarDecl 0 1 2 2 true).1 (by decide),
    (c8_flag_banks_disjoint plainVarDecl 0 1 2 2 true).2.1,
    (c8_flag_banks_disjoint plainVarDecl 0 1 2 2 true).2.2.1,
    (c8_flag_banks_disjoint plainVarDecl 0 1 2 2 true).2.2.2.1⟩

/-! ## Claim C9: the same-type predicate and its modes -/

/-- The 2-level inheritance fixture: a base class. -/
def baseTy : CmpType := ⟨0⟩

/-- The derived class of the fixture. -/
def derivedTy : CmpType := ⟨1⟩

/-- The inheritance environment of the fixture: derivedTy lists baseTy
as its only direct base. -/
def derivedEnv : Nat → List Nat := fun i => if i = 1 then [0] else []

/-- Claim C9: same_type_p is reflexive and symmetric (COMPARE_STRICT);
under COMPARE_BASE the predicate is intentionally asymmetric on a proper
derived/base pair, accepting (Base, Derived) and rejecting
(Derived, Base); COMPARE_DERIVED is the reverse of COMPARE_BASE. -/
theorem c9_same_type_modes :
    (∀ (env : Nat → List Nat) (fuel : Nat) (t : CmpType),
      same_type_p env fuel t t = true)
    ∧ (∀ (env : Nat → List Nat) (fuel : Nat) (t1 t2 : CmpType),
      same_type_p env fuel t1 t2 = same_type_p env fuel t2 t1)
    ∧ same_or_base_type_p derivedEnv 2 baseTy derivedTy = true
    ∧ same_or_base_type_p derivedEnv 2 derivedTy baseTy = false
    ∧ comptypes derivedEnv 2 derivedTy baseTy COMPARE_DERIVED = true
    ∧ comptypes derivedEnv 2 baseTy derivedTy COMPARE_DERIVED = false := by
  refine ⟨?_, ?_, rfl, rfl, rfl, rfl⟩
  · intro env fuel t
    simp [same_type_p, comptypes, COMPARE_STRICT, COMPARE_BASE,
      COMPARE_DERIVED]
  · intro env fuel t1 t2
    by_cases h : t1 = t2
    · subst h; rfl
    · simp [same_type_p, comptypes, COMPARE_STRICT, COMPARE_BASE,
        COMPARE_DERIVED, h, Ne.symm h]

/-! ## Claim C10: mark_use with reject_builtin -/

/-- Claim C10: on every expression that is neither the null tree nor an
error operand, mark_use with reject_builtin set returns error_mark_node
outright, for every rvalue/read mode; hence mark_rvalue_use with its
source defaults (reject_builtin true) also returns error_mark_node and
never returns its input. -/
theorem c10_mark_use_reject (expr : RTree) (rvalue_p read_p : Bool)
    (loc : Nat) (h1 : ¬ expr = RTree.null)
    (h2 : error_operand_p expr = false) :
    mark_use expr rvalue_p read_p loc true = error_mark_node
    ∧ mark_rvalue_use expr loc true = error_mark_node
    ∧ ¬ mark_use expr rvalue_p read_p loc true = expr := by
  have hm : ∀ rv rd : Bool, mark_use expr rv rd loc true = error_mark_node := by
    intro rv rd
    unfold mark_use
    simp [h1, h2]
  have hne : ¬ (error_mark_node = expr) := by
    intro he
    rw [← he] at h2
    exact absurd h2 (by decide)
  refine ⟨hm _ _, hm true true, fun hEq => hne ?_⟩
  rw [hm rvalue_p read_p] at hEq
  exact hEq

/-- A variable use expression for the C10 witness. -/
def sampleVarUse : RTree :=
  .mk .VAR_DECL .null .null .null .null false false false false 7

/-- Claim C10 witness: at the concrete variable use, mark_use with
reject_builtin set returns error_mark_node. -/
theorem c10_witness :
    (¬ sampleVarUse = RTree.null)
    ∧ error_operand_p sampleVarUse = false
    ∧ mark_use sampleVarUse true false 3 true = error_mark_node :=
  ⟨by decide, by decide,
    (c10_mark_use_reject sampleVarUse true false 3 (by decide)
      (by decide)).1⟩

end Gccrs
